import Mathlib

/-!
Shallow embedding of the NVH synthetic dataset generator
(`vehicle_master.py`).  Randomness is made explicit: every call to the
pseudo-random library is replaced by a field of a per-record draw
structure.  A call `random.choice(l)` becomes an arbitrary index reduced
modulo the list length, `random.randint(a, b)` becomes an arbitrary raw
draw reduced into the inclusive interval, and `random.random()` becomes
an arbitrary rational unit draw compared against the thresholds that
appear literally in the source.
-/

namespace NVH

/-- Models Python random.choice: an index draw reduced modulo the list length. -/
def choice {α : Type} [Inhabited α] (l : List α) (i : Nat) : α :=
  l.getD (i % l.length) default

/-- Models Python random.randint a b, both endpoints inclusive. -/
def randint (a b x : Nat) : Nat := a + x % (b + 1 - a)

/-- Models Python random.uniform a b as an affine image of a unit draw u. -/
def uniformQ (a b u : ℚ) : ℚ := a + u * (b - a)

/-- Decimal digit character for the final decimal digit of n. -/
def digitChar (n : Nat) : Char := Char.ofNat (48 + n % 10)

/-- Two-digit zero-padded decimal rendering, as Python format 02d for values below 100. -/
def pad2 (n : Nat) : String := ⟨[digitChar (n / 10), digitChar n]⟩

/-- Four-digit zero-padded decimal rendering, as Python format 04d (and percent Y, and plain formatting of a four-digit year) for values below 10000. -/
def pad4 (n : Nat) : String :=
  ⟨[digitChar (n / 1000), digitChar (n / 100), digitChar (n / 10), digitChar n]⟩

/-- Five-digit zero-padded decimal rendering, as Python format 05d for values below 100000. -/
def pad5 (n : Nat) : String :=
  ⟨[digitChar (n / 10000), digitChar (n / 1000), digitChar (n / 100), digitChar (n / 10), digitChar n]⟩

/-- Checks whether the pattern occurs at the head of the list. -/
def matchesAt : List Char → List Char → Bool
  | _, [] => true
  | [], _ :: _ => false
  | c :: cs, p :: ps => c == p && matchesAt cs ps

/-- Checks whether the pattern occurs anywhere in the list. -/
def hasSub : List Char → List Char → Bool
  | [], pat => pat.isEmpty
  | c :: cs, pat => matchesAt (c :: cs) pat || hasSub cs pat

/-- Models the Python substring test `pat in s`. -/
def strContains (s pat : String) : Bool := hasSub s.data pat.data

/-- Models Python round(x, 2).  Ties at exactly half are immaterial to the claims below. -/
def round2 (q : ℚ) : ℚ := (round (q * 100) : ℤ) / 100

/-- Models Python round(x, 1). -/
def round1 (q : ℚ) : ℚ := (round (q * 10) : ℤ) / 10

/-- Gregorian leap-year test. -/
def isLeap (y : Nat) : Bool := (y % 4 == 0 && y % 100 != 0) || (y % 400 == 0)

/-- Number of days in year y. -/
def daysInYear (y : Nat) : Nat := if isLeap y then 366 else 365

/-- Month lengths of year y, January first. -/
def monthLengths (y : Nat) : List Nat :=
  [31, if isLeap y then 29 else 28, 31, 30, 31, 30, 31, 31, 30, 31, 30, 31]

/-- Walks forward whole years while the offset exceeds the year length; the fuel bounds the walk. -/
def findYear : Nat → Nat → Nat → Nat × Nat
  | 0, y, off => (y, off)
  | fuel + 1, y, off =>
    if off < daysInYear y then (y, off) else findYear fuel (y + 1) (off - daysInYear y)

/-- Walks forward whole months while the offset exceeds the month length. -/
def findMonth : List Nat → Nat → Nat → Nat × Nat
  | [], m, off => (m, off)
  | len :: rest, m, off => if off < len then (m, off) else findMonth rest (m + 1) (off - len)

/-- Converts a day offset from January 1 of startYear into a calendar date, modelling Python datetime plus timedelta days. -/
def dateFromOffset (startYear off : Nat) : Nat × Nat × Nat :=
  let yd := findYear 100 startYear off
  let md := findMonth (monthLengths yd.1) 1 yd.2
  (yd.1, md.1, md.2 + 1)

/-- Models strftime with format percent Y dash percent m dash percent d. -/
def fmtDate (ymd : Nat × Nat × Nat) : String :=
  pad4 ymd.1 ++ "-" ++ pad2 ymd.2.1 ++ "-" ++ pad2 ymd.2.2

/-- Models strftime with a full timestamp format; the added timedelta has whole hours, so minutes and seconds are zero. -/
def fmtDateTime (ymd : Nat × Nat × Nat) (h : Nat) : String :=
  fmtDate ymd ++ " " ++ pad2 h ++ ":00:00"

/-! Configuration constants of the source. -/

def NUM_VEHICLES : Nat := 60
def NUM_MEASUREMENTS : Nat := 800
def NUM_FEEDBACK : Nat := 600

/-! Table 1: vehicle master data. -/

def vehicle_models : List String :=
  ["Commuter Bike A1", "Commuter Bike A2", "Cruiser B1", "Cruiser B2",
   "Sport Bike C1", "Naked Bike D1", "Adventure Bike E1",
   "Superbike F1", "Electric Bike G1", "Hybrid Bike H1"]

def manufacturers : List String := ["AutoCorp", "VehicleTech", "MotorWorks", "DriveMax"]

def engine_types : List String := ["Gasoline", "Diesel", "Electric", "Hybrid"]

/-- Row of the vehicle master table; the dict built per vehicle in the source. -/
structure VehicleRow where
  vehicleID : String
  vehicleModel : Option String
  manufacturer : Option String
  engineType : Option String
  manufacturingDate : Option String
deriving Inhabited, DecidableEq

/-- Random draws consumed while building one base vehicle row. -/
structure VehicleDraws where
  modelIdx : Nat
  gasDieselIdx : Nat
  modelNullU : ℚ
  manufacturerIdx : Nat
  manufacturerNullU : ℚ
  engineNullU : ℚ
  mfgDateOffsetDraw : Nat
  mfgDateNullU : ℚ
deriving Inhabited

/-- Model drawn for a base vehicle row: the local variable model of the loop body. -/
def modelOf (d : VehicleDraws) : String := choice vehicle_models d.modelIdx

/-- Engine type derived from the drawn model: the local variable engine of the loop body. -/
def engineOf (d : VehicleDraws) : String :=
  if strContains (modelOf d) "Electric" then "Electric"
  else if strContains (modelOf d) "Hybrid" then "Hybrid"
  else choice ["Gasoline", "Diesel"] d.gasDieselIdx

/-- Builds the vehicle row with index i, following the loop body of generate_vehicle_master. -/
def makeVehicle (i : Nat) (d : VehicleDraws) : VehicleRow :=
  let model := modelOf d
  let engine := engineOf d
  { vehicleID := "VEH" ++ pad4 i
    vehicleModel := if d.modelNullU > 5 / 100 then some model else none
    manufacturer :=
      if d.manufacturerNullU > 8 / 100 then some (choice manufacturers d.manufacturerIdx) else none
    engineType := if d.engineNullU > 6 / 100 then some engine else none
    manufacturingDate :=
      if d.mfgDateNullU > 7 / 100 then
        some (fmtDate (dateFromOffset 2020 (randint 0 1460 d.mfgDateOffsetDraw)))
      else none }

/-- Appends n duplicate rows one at a time, each chosen by random.choice over the current list; pick k supplies the index draw of the k-th appended duplicate. -/
def addDupsFrom {α : Type} [Inhabited α] (picks : Nat → Nat) : Nat → Nat → List α → List α
  | _, 0, l => l
  | k, n + 1, l => addDupsFrom picks (k + 1) n (l ++ [choice l (picks k)])

/-- Generates the vehicle master table: NUM_VEHICLES base rows, then int(NUM_VEHICLES * 0.10) duplicates.  The float product 60 * 0.10 truncates to 6, which equals the Nat division below. -/
def generate_vehicle_master (draws : Nat → VehicleDraws) (dupPicks : Nat → Nat) : List VehicleRow :=
  let vehicles := (List.range NUM_VEHICLES).map (fun k => makeVehicle (k + 1) (draws k))
  let num_duplicates := NUM_VEHICLES * 10 / 100
  addDupsFrom dupPicks 0 num_duplicates vehicles

/-! Table 2: NVH measurements. -/

def test_conditions : List String :=
  ["City Driving", "Highway Driving", "Rough Road", "Smooth Road", "Acceleration", "Braking", "Idling"]

def road_surfaces : List String := ["Asphalt", "Concrete", "Gravel", "Cobblestone", "Test Track"]

/-- Row of the measurement table; the dict built per measurement in the source. -/
structure MeasurementRow where
  measurementID : String
  vehicleID : String
  measurementDate : Option String
  roadSurface : Option String
  speedKMH : Option Nat
  noiseLevelDB : Option ℚ
  vibrationFrequencyHz : Option ℚ
  harshnessScore : Option ℚ
deriving Inhabited, DecidableEq

/-- Random draws consumed while building one measurement row. -/
structure MeasurementDraws where
  vehIdx : Nat
  tcIdx : Nat
  rsIdx : Nat
  noiseU : ℚ
  vibU : ℚ
  speedDraw : Nat
  harshU : ℚ
  dateAnomU : ℚ
  anomTypeIdx : Nat
  farYearIdx : Nat
  anomMonthDraw : Nat
  anomDayDraw : Nat
  anomHourDraw : Nat
  anomMinuteDraw : Nat
  normalDayOff : Nat
  normalHourOff : Nat
  normalNullU : ℚ
  jitterU : ℚ
  rsNullU : ℚ
  speedNullU : ℚ
  noiseNullU : ℚ
  vibNullU : ℚ
  harshNullU : ℚ
deriving Inhabited

/-- Month, day, hour and minute components shared by both anomalous date branches of the source, each drawn with random.randint and zero-padded. -/
def anomTimePart (d : MeasurementDraws) : String :=
  pad2 (randint 1 12 d.anomMonthDraw) ++ "-" ++ pad2 (randint 1 28 d.anomDayDraw) ++ " " ++
    pad2 (randint 0 23 d.anomHourDraw) ++ ":" ++ pad2 (randint 0 59 d.anomMinuteDraw) ++ ":00"

/-- Builds the deliberately anomalous timestamp string of the one-percent branch. -/
def anomalousDate (d : MeasurementDraws) : String :=
  let inconsistent_type := choice ["future_year", "far_future_year"] d.anomTypeIdx
  if inconsistent_type = "future_year" then
    "2029-" ++ anomTimePart d
  else
    pad4 (choice [2080, 2090, 2099] d.farYearIdx) ++ "-" ++ anomTimePart d

/-- Builds the measurement row with zero-based index i, following the loop body of generate_nvh_measurements. -/
def makeMeasurement (vehicles : List VehicleRow) (i : Nat) (d : MeasurementDraws) : MeasurementRow :=
  let vehicle := choice vehicles d.vehIdx
  let test_condition := choice test_conditions d.tcIdx
  let road_surface := choice road_surfaces d.rsIdx
  let base_noise : ℚ :=
    if test_condition = "City Driving" then uniformQ 65 75 d.noiseU
    else if test_condition = "Highway Driving" then uniformQ 70 80 d.noiseU
    else if test_condition = "Rough Road" then uniformQ 75 90 d.noiseU
    else if test_condition = "Acceleration" then uniformQ 80 95 d.noiseU
    else if test_condition = "Idling" then uniformQ 40 55 d.noiseU
    else 60
  let base_vib_freq : ℚ :=
    if road_surface = "Gravel" ∨ road_surface = "Cobblestone" then uniformQ 80 200 d.vibU
    else if road_surface = "Asphalt" then uniformQ 30 80 d.vibU
    else uniformQ 40 120 d.vibU
  let speed : Nat := if test_condition ≠ "Idling" then randint 15 120 d.speedDraw else 0
  let harshness : ℚ :=
    if road_surface = "Gravel" ∨ road_surface = "Cobblestone" then uniformQ 6 9 d.harshU
    else if base_noise > 80 then uniformQ 6 8 d.harshU
    else uniformQ 2 6 d.harshU
  let measurement_date : Option String :=
    if d.dateAnomU < 1 / 100 then some (anomalousDate d)
    else if d.normalNullU > 3 / 100 then
      some (fmtDateTime (dateFromOffset 2023 (randint 0 730 d.normalDayOff))
        (randint 0 23 d.normalHourOff))
    else none
  { measurementID := "MEAS" ++ pad5 (i + 1)
    vehicleID := vehicle.vehicleID
    measurementDate := measurement_date
    roadSurface := if d.rsNullU > 6 / 100 then some road_surface else none
    speedKMH := if d.speedNullU > 5 / 100 then some speed else none
    noiseLevelDB :=
      if d.noiseNullU > 3 / 100 then some (round2 (base_noise + uniformQ (-3) 3 d.jitterU)) else none
    vibrationFrequencyHz := if d.vibNullU > 1 / 100 then some (round2 base_vib_freq) else none
    harshnessScore := if d.harshNullU > 1 / 100 then some (round1 harshness) else none }

/-- Generates the measurement table: exactly NUM_MEASUREMENTS rows sampling the vehicle table with replacement. -/
def generate_nvh_measurements (vehicles : List VehicleRow) (draws : Nat → MeasurementDraws) :
    List MeasurementRow :=
  (List.range NUM_MEASUREMENTS).map (fun i => makeMeasurement vehicles i (draws i))

/-! Table 3: customer feedback. -/

def comments_positive : List String :=
  ["Very smooth and quiet ride, excellent NVH performance",
   "Minimal cabin noise even at highway speeds",
   "Comfortable ride with well-damped suspension",
   "Engine operates quietly and smoothly",
   "Excellent noise insulation throughout the cabin",
   "Ride quality is impressive with minimal vibrations",
   "Very pleased with the overall refinement",
   "Smooth operation with excellent sound dampening"]

def comments_neutral : List String :=
  ["Acceptable noise levels for the price range",
   "Ride comfort is adequate for daily commuting",
   "Some road noise on rough surfaces but manageable",
   "Average NVH performance compared to competitors",
   "Satisfactory overall, minor vibrations at idle"]

def comments_negative : List String :=
  ["Excessive engine noise during acceleration",
   "Uncomfortable vibrations felt through steering wheel",
   "Road noise is too loud on highway",
   "Harsh ride over bumps and rough roads",
   "Engine vibrations noticeable in the cabin",
   "Wind noise at high speeds is intrusive",
   "Dashboard rattles over rough surfaces",
   "Seat vibrations make long drives uncomfortable",
   "Poor noise insulation, tire noise is excessive",
   "Steering wheel vibrates excessively"]

def comfort_levels : List String := ["Very Poor", "Poor", "Fair", "Good", "Very Good", "Excellent"]

/-- Row of the feedback table; the dict built per feedback in the source. -/
structure FeedbackRow where
  feedbackID : String
  vehicleID : String
  comfortLevel : Option String
  comment : Option String
deriving Inhabited, DecidableEq

/-- Random draws consumed while building one feedback row. -/
structure FeedbackDraws where
  vehIdx : Nat
  comfortIdx : Nat
  commentIdx : Nat
  comfortNullU : ℚ
  commentNullU : ℚ
deriving Inhabited

/-- Comment pool keyed by the drawn comfort tier, mirroring the branch structure of the source. -/
def poolFor (t : String) : List String :=
  if t = "Excellent" ∨ t = "Very Good" then comments_positive
  else if t = "Good" ∨ t = "Fair" then comments_neutral
  else comments_negative

/-- Builds the feedback row with zero-based index i, following the loop body of generate_customer_feedback. -/
def makeFeedback (vehicles : List VehicleRow) (i : Nat) (d : FeedbackDraws) : FeedbackRow :=
  let vehicle := choice vehicles d.vehIdx
  let comfort_level := choice comfort_levels d.comfortIdx
  let comment := choice (poolFor comfort_level) d.commentIdx
  { feedbackID := "FB" ++ pad5 (i + 1)
    vehicleID := vehicle.vehicleID
    comfortLevel := if d.comfortNullU > 15 / 100 then some comfort_level else none
    comment := if d.commentNullU > 10 / 100 then some comment else none }

/-- Generates the feedback table: exactly NUM_FEEDBACK rows sampling the vehicle table with replacement. -/
def generate_customer_feedback (vehicles : List VehicleRow) (draws : Nat → FeedbackDraws) :
    List FeedbackRow :=
  (List.range NUM_FEEDBACK).map (fun i => makeFeedback vehicles i (draws i))

/-! Labelled views of the rows.  The dict keys of the source become column
labels of the written tables, in insertion order. -/

/-- Value of one labelled field of a row. -/
inductive FieldVal where
  | str : String → FieldVal
  | nat : Nat → FieldVal
  | rat : ℚ → FieldVal
  | null : FieldVal
deriving DecidableEq

def ofOptStr : Option String → FieldVal
  | some s => .str s
  | none => .null

def ofOptNat : Option Nat → FieldVal
  | some n => .nat n
  | none => .null

def ofOptRat : Option ℚ → FieldVal
  | some q => .rat q
  | none => .null

/-- Labelled fields of a vehicle row, in the insertion order of the source dict. -/
def vehicleFields (r : VehicleRow) : List (String × FieldVal) :=
  [("Vehicle ID", .str r.vehicleID),
   ("Vehicle Model", ofOptStr r.vehicleModel),
   ("Manufacturer", ofOptStr r.manufacturer),
   ("Engine Type", ofOptStr r.engineType),
   ("Manufacturing Date", ofOptStr r.manufacturingDate)]

/-- Labelled fields of a measurement row, in the insertion order of the source dict. -/
def measurementFields (r : MeasurementRow) : List (String × FieldVal) :=
  [("Measurement ID", .str r.measurementID),
   ("Vehicle ID", .str r.vehicleID),
   ("Measurement Date", ofOptStr r.measurementDate),
   ("Road Surface", ofOptStr r.roadSurface),
   ("Speed (KMH)", ofOptNat r.speedKMH),
   ("Noise Level (dB)", ofOptRat r.noiseLevelDB),
   ("Vibration Frequency (Hz)", ofOptRat r.vibrationFrequencyHz),
   ("Harshness Score", ofOptRat r.harshnessScore)]

/-- Labelled fields of a feedback row, in the insertion order of the source dict. -/
def feedbackFields (r : FeedbackRow) : List (String × FieldVal) :=
  [("Feedback ID", .str r.feedbackID),
   ("Vehicle ID", .str r.vehicleID),
   ("Comfort Level", ofOptStr r.comfortLevel),
   ("Comment", ofOptStr r.comment)]

def vehicleColumns : List String :=
  ["Vehicle ID", "Vehicle Model", "Manufacturer", "Engine Type", "Manufacturing Date"]

def measurementColumns : List String :=
  ["Measurement ID", "Vehicle ID", "Measurement Date", "Road Surface", "Speed (KMH)",
   "Noise Level (dB)", "Vibration Frequency (Hz)", "Harshness Score"]

def feedbackColumns : List String :=
  ["Feedback ID", "Vehicle ID", "Comfort Level", "Comment"]

/-- Value stored under a column label of a measurement row. -/
def fieldValAt (r : MeasurementRow) (c : String) : FieldVal :=
  ((measurementFields r).lookup c).getD FieldVal.null

/-! Report driver.  The summary section of main is modelled by the sequence
of column labels it reads from each table, in source order; reading a label
that the table does not carry raises a key error, modelled as Except.error
carrying the missing label.  The three spreadsheet writes happen before the
summary section. -/

/-- Column labels read from the vehicle table by the summary section, in source order. -/
def vehicleSummaryReads : List String :=
  ["Vehicle ID", "Vehicle Model", "Engine Type",
   "Vehicle Model", "Manufacturer", "Engine Type", "Manufacturing Date"]

/-- Column labels read from the measurement table by the summary section, in source order. -/
def measurementSummaryReads : List String :=
  ["Measurement Date", "Measurement Date",
   "Noise Level(dB)", "Vibration Frequency(Hz)", "Harshness Score",
   "Measurement Date", "Road Surface", "Speed(km/h)", "Noise Level(dB)",
   "Vibration Frequency(Hz)", "Harshness Score"]

/-- Column labels read from the feedback table by the summary section, in source order. -/
def feedbackSummaryReads : List String :=
  ["Comfort Level", "Comfort Level", "Comment"]

/-- Performs the column reads in order; the first label absent from the table aborts with that label, as an uncaught Python KeyError does. -/
def runReads (cols : List String) : List String → Except String Unit
  | [] => .ok ()
  | c :: rest => if c ∈ cols then runReads cols rest else .error c

/-- Summary section of main: vehicle reads, then measurement reads, then feedback reads. -/
def summaryStep : Except String Unit :=
  (runReads vehicleColumns vehicleSummaryReads).bind (fun _ =>
    (runReads measurementColumns measurementSummaryReads).bind (fun _ =>
      runReads feedbackColumns feedbackSummaryReads))

/-- Outcome of main: the spreadsheet files written, in order, and the result of the summary section that follows the writes. -/
structure MainResult where
  written : List String
  summary : Except String Unit

/-- Models main: the three to_excel calls precede the summary section. -/
def mainModel : MainResult :=
  { written := ["Vehicle.xlsx", "NVH_Measurements.xlsx", "Customer_Feedback.xlsx"]
    summary := summaryStep }

/-- Process exit status: an uncaught exception in the summary yields a non-zero exit. -/
def exitCodeOf : Except String Unit → Nat
  | .ok _ => 0
  | .error _ => 1

/-! Parsing of the timestamp strings, for the anomalous-date claim. -/

/-- Numeric value of a digit character. -/
def charVal (c : Char) : Nat := c.toNat - 48

/-- Year component of a timestamp string in the format YYYY-MM-DD: the first four characters. -/
def yearOfDate (s : String) : Nat :=
  ((charVal (s.data.getD 0 '0') * 10 + charVal (s.data.getD 1 '0')) * 10 +
      charVal (s.data.getD 2 '0')) * 10 + charVal (s.data.getD 3 '0')

/-- Month component of a timestamp string in the format YYYY-MM-DD: characters five and six. -/
def monthOfDate (s : String) : Nat :=
  charVal (s.data.getD 5 '0') * 10 + charVal (s.data.getD 6 '0')

/-- Day component of a timestamp string in the format YYYY-MM-DD: characters eight and nine. -/
def dayOfDate (s : String) : Nat :=
  charVal (s.data.getD 8 '0') * 10 + charVal (s.data.getD 9 '0')

/-! Concrete inputs used by witnesses and counterexamples. -/

/-- Draws selecting the Electric Bike model with every nullable field kept. -/
def sampleVehicleDraws : VehicleDraws :=
  { modelIdx := 8, gasDieselIdx := 0, modelNullU := 1, manufacturerIdx := 0,
    manufacturerNullU := 1, engineNullU := 1, mfgDateOffsetDraw := 0, mfgDateNullU := 1 }

/-- Concrete vehicle row used as a one-row vehicle table. -/
def sampleVehicle : VehicleRow := makeVehicle 1 sampleVehicleDraws

/-- Measurement draws taking the Smooth Road test condition, with every nullable field kept and a normal date. -/
def cexDrawsA : MeasurementDraws :=
  { vehIdx := 0, tcIdx := 3, rsIdx := 0, noiseU := 0, vibU := 0, speedDraw := 0, harshU := 0,
    dateAnomU := 1, anomTypeIdx := 0, farYearIdx := 0, anomMonthDraw := 0, anomDayDraw := 0,
    anomHourDraw := 0, anomMinuteDraw := 0, normalDayOff := 0, normalHourOff := 0,
    normalNullU := 1, jitterU := 0, rsNullU := 1, speedNullU := 1, noiseNullU := 1,
    vibNullU := 1, harshNullU := 1 }

/-- Measurement draws identical to cexDrawsA except for the test condition, which is Braking. -/
def cexDrawsB : MeasurementDraws := { cexDrawsA with tcIdx := 5 }

/-- Measurement draws whose date draw takes the anomalous branch. -/
def anomDraws : MeasurementDraws := { cexDrawsA with dateAnomU := 0 }

/-- Feedback draws selecting the Excellent comfort level with every nullable field kept. -/
def sampleFeedbackDraws : FeedbackDraws :=
  { vehIdx := 0, comfortIdx := 5, commentIdx := 0, comfortNullU := 1, commentNullU := 1 }

/-! Helper lemmas. -/

/-- Membership of random.choice results in the sampled list. -/
theorem choice_mem {α : Type} [Inhabited α] (l : List α) (i : Nat) (h : l ≠ []) :
    choice l i ∈ l := by
  have hl : 0 < l.length := List.length_pos.mpr h
  have hi : i % l.length < l.length := Nat.mod_lt _ hl
  rw [choice, List.getD_eq_getElem _ _ hi]
  exact List.getElem_mem hi

/-- Bounds of random.randint draws. -/
theorem randint_bounds (a b x : Nat) (h : a ≤ b) :
    a ≤ randint a b x ∧ randint a b x ≤ b := by
  unfold randint
  have hm : x % (b + 1 - a) < b + 1 - a := Nat.mod_lt _ (by omega)
  omega

/-- Roundtrip of the digit character map. -/
theorem charVal_digitChar (k : Nat) : charVal (digitChar k) = k % 10 := by
  unfold charVal digitChar
  have hb : k % 10 < 10 := Nat.mod_lt _ (by norm_num)
  revert hb
  generalize k % 10 = r
  intro hb
  interval_cases r <;> decide

/-- Length bookkeeping for the duplicate-appending loop. -/
theorem addDupsFrom_length {α : Type} [Inhabited α] (picks : Nat → Nat) :
    ∀ (n k : Nat) (l : List α), (addDupsFrom picks k n l).length = l.length + n := by
  intro n
  induction n with
  | zero => intro k l; rfl
  | succ n ih =>
    intro k l
    rw [addDupsFrom, ih]
    simp
    omega

/-- Shape of the duplicate-appending loop: it only appends to the initial list. -/
theorem addDupsFrom_eq_append {α : Type} [Inhabited α] (picks : Nat → Nat) :
    ∀ (n k : Nat) (l : List α), ∃ t, addDupsFrom picks k n l = l ++ t := by
  intro n
  induction n with
  | zero => intro k l; exact ⟨[], by simp [addDupsFrom]⟩
  | succ n ih =>
    intro k l
    obtain ⟨t, ht⟩ := ih (k + 1) (l ++ [choice l (picks k)])
    exact ⟨choice l (picks k) :: t, by rw [addDupsFrom, ht]; simp⟩

/-- Row count of generate_vehicle_master with the fixed configuration. -/
theorem generate_vehicle_master_length (vd : Nat → VehicleDraws) (dp : Nat → Nat) :
    (generate_vehicle_master vd dp).length = 66 := by
  rw [generate_vehicle_master, addDupsFrom_length]
  simp [NUM_VEHICLES]

/-- Comment pools are never empty. -/
theorem poolFor_ne_nil (t : String) : poolFor t ≠ [] := by
  unfold poolFor
  split
  · decide
  · split <;> decide

/-- Catalog fact: a model name containing Hybrid contains no Electric. -/
theorem hybrid_not_electric :
    ∀ m ∈ vehicle_models, strContains m "Hybrid" = true → strContains m "Electric" = false := by
  decide

/-- Nulling pattern of the source: keep the value when the draw exceeds the threshold. -/
theorem gtIte_none_iff {α : Type} (u t : ℚ) (x : α) :
    (if u > t then some x else none) = none ↔ u ≤ t := by
  rcases le_or_lt u t with h | h
  · rw [if_neg (not_lt.mpr h)]
    simp [h]
  · rw [if_pos h]
    simp [not_le.mpr h]

/-! Claim theorems. -/

/-- C1: with the fixed configuration (NUM_VEHICLES = 60, NUM_MEASUREMENTS = 800,
NUM_FEEDBACK = 600), generate_vehicle_master returns 60 + 6 = 66 rows, the first 60 of
which are the base rows in order (the remaining 6 being the appended duplicates),
generate_nvh_measurements returns exactly 800 rows, and generate_customer_feedback
returns exactly 600 rows. -/
theorem claim_C1_row_counts (vd : Nat → VehicleDraws) (dp : Nat → Nat)
    (vehicles : List VehicleRow) (md : Nat → MeasurementDraws) (fd : Nat → FeedbackDraws) :
    (generate_vehicle_master vd dp).length = 66 ∧
    (generate_vehicle_master vd dp).length = NUM_VEHICLES + NUM_VEHICLES * 10 / 100 ∧
    (generate_vehicle_master vd dp).take NUM_VEHICLES
      = (List.range NUM_VEHICLES).map (fun k => makeVehicle (k + 1) (vd k)) ∧
    (generate_nvh_measurements vehicles md).length = 800 ∧
    (generate_customer_feedback vehicles fd).length = 600 := by
  refine ⟨generate_vehicle_master_length vd dp, ?_, ?_, ?_, ?_⟩
  · rw [generate_vehicle_master_length]
    norm_num [NUM_VEHICLES]
  · show (addDupsFrom dp 0 (NUM_VEHICLES * 10 / 100)
        ((List.range NUM_VEHICLES).map (fun k => makeVehicle (k + 1) (vd k)))).take NUM_VEHICLES
      = (List.range NUM_VEHICLES).map (fun k => makeVehicle (k + 1) (vd k))
    obtain ⟨t, ht⟩ := addDupsFrom_eq_append dp (NUM_VEHICLES * 10 / 100) 0
      ((List.range NUM_VEHICLES).map (fun k => makeVehicle (k + 1) (vd k)))
    rw [ht]
    have hlen : ((List.range NUM_VEHICLES).map (fun k => makeVehicle (k + 1) (vd k))).length
        = NUM_VEHICLES := by simp
    exact List.take_left' hlen
  · simp [generate_nvh_measurements, NUM_MEASUREMENTS]
  · simp [generate_customer_feedback, NUM_FEEDBACK]

/-- C2: the claim says each of the road surface, speed, noise, vibration and harshness
fields is nulled with a probability in roughly five to twelve percent.  The code keeps a
value exactly when its unit draw exceeds the literal threshold, so the null
probabilities are the thresholds themselves: 6 percent, 5 percent, 3 percent, 1 percent
and 1 percent, contradicting the claimed range (and the inline comments of the source)
for the noise, vibration and harshness fields.  This theorem pins the actual
thresholds. -/
theorem claim_C2_null_thresholds (v : List VehicleRow) (i : Nat) (d : MeasurementDraws) :
    ((makeMeasurement v i d).roadSurface = none ↔ d.rsNullU ≤ 6 / 100) ∧
    ((makeMeasurement v i d).speedKMH = none ↔ d.speedNullU ≤ 5 / 100) ∧
    ((makeMeasurement v i d).noiseLevelDB = none ↔ d.noiseNullU ≤ 3 / 100) ∧
    ((makeMeasurement v i d).vibrationFrequencyHz = none ↔ d.vibNullU ≤ 1 / 100) ∧
    ((makeMeasurement v i d).harshnessScore = none ↔ d.harshNullU ≤ 1 / 100) := by
  refine ⟨?_, ?_, ?_, ?_, ?_⟩ <;> exact gtIte_none_iff _ _ _

/-- C4: on every run, the summary section of main fails with a missing-column error on
the label Noise Level(dB): the generator stores Noise Level (dB) and Speed (KMH), the
driver reads Noise Level(dB) and Speed(km/h), and the three spreadsheet files are
written before the summary section runs. -/
theorem claim_C4_summary_key_error :
    mainModel.written = ["Vehicle.xlsx", "NVH_Measurements.xlsx", "Customer_Feedback.xlsx"] ∧
    mainModel.summary = Except.error "Noise Level(dB)" ∧
    exitCodeOf mainModel.summary = 1 ∧
    measurementColumns.contains "Noise Level(dB)" = false ∧
    measurementColumns.contains "Speed(km/h)" = false ∧
    measurementColumns.contains "Noise Level (dB)" = true ∧
    measurementColumns.contains "Speed (KMH)" = true := by
  exact ⟨rfl, rfl, rfl, by decide, by decide, by decide, by decide⟩

/-- C5: if the summary section reads a column label absent from the table after any
run of present labels, the run aborts at that label with no recovery, regardless of
the reads that would follow, and the process exit status is non-zero. -/
theorem claim_C5_missing_column_fatal (cols pre post : List String) (c : String)
    (hpre : ∀ a ∈ pre, a ∈ cols) (hc : c ∉ cols) :
    runReads cols (pre ++ c :: post) = Except.error c ∧
    exitCodeOf (runReads cols (pre ++ c :: post)) = 1 := by
  have h : runReads cols (pre ++ c :: post) = Except.error c := by
    induction pre with
    | nil => simp [runReads, hc]
    | cons a rest ih =>
      have ha : a ∈ cols := hpre a (by simp)
      rw [List.cons_append, runReads, if_pos ha]
      exact ih (fun x hx => hpre x (by simp [hx]))
  rw [h]
  exact ⟨rfl, rfl⟩

/-- Witness for C5: the actual measurement-summary reads of main abort at the label
Noise Level(dB) and yield exit status 1. -/
theorem claim_C5_missing_column_fatal_witness :
    runReads measurementColumns
        (["Measurement Date", "Measurement Date"] ++ "Noise Level(dB)" ::
          ["Vibration Frequency(Hz)", "Harshness Score", "Measurement Date", "Road Surface",
           "Speed(km/h)", "Noise Level(dB)", "Vibration Frequency(Hz)", "Harshness Score"])
      = Except.error "Noise Level(dB)" ∧
    exitCodeOf (runReads measurementColumns
        (["Measurement Date", "Measurement Date"] ++ "Noise Level(dB)" ::
          ["Vibration Frequency(Hz)", "Harshness Score", "Measurement Date", "Road Surface",
           "Speed(km/h)", "Noise Level(dB)", "Vibration Frequency(Hz)", "Harshness Score"]))
      = 1 :=
  claim_C5_missing_column_fatal measurementColumns _ _ "Noise Level(dB)"
    (by decide) (by decide)

/-- C6: for every vehicle row, a non-null model containing Electric forces the
engine type, when non-null, to be Electric; a non-null model containing Hybrid
forces it to Hybrid; and otherwise the engine type is drawn from Gasoline or
Diesel. -/
theorem claim_C6_engine_model (i : Nat) (d : VehicleDraws) (m e : String)
    (hm : (makeVehicle i d).vehicleModel = some m)
    (he : (makeVehicle i d).engineType = some e) :
    (strContains m "Electric" = true → e = "Electric") ∧
    (strContains m "Hybrid" = true → e = "Hybrid") ∧
    (strContains m "Electric" = false → strContains m "Hybrid" = false →
      e = "Gasoline" ∨ e = "Diesel") := by
  have hm2 : m = modelOf d := by
    rcases le_or_lt d.modelNullU (5 / 100) with h | h
    · simp [makeVehicle, not_lt.mpr h] at hm
    · simp [makeVehicle, h] at hm
      exact hm.symm
  have he2 : e = engineOf d := by
    rcases le_or_lt d.engineNullU (6 / 100) with h | h
    · simp [makeVehicle, not_lt.mpr h] at he
    · simp [makeVehicle, h] at he
      exact he.symm
  subst hm2
  subst he2
  refine ⟨?_, ?_, ?_⟩
  · intro h
    simp [engineOf, h]
  · intro h
    have hmem : modelOf d ∈ vehicle_models := choice_mem _ _ (by decide)
    have hne := hybrid_not_electric (modelOf d) hmem h
    simp [engineOf, hne, h]
  · intro hE hH
    have hgd : engineOf d = choice ["Gasoline", "Diesel"] d.gasDieselIdx := by
      simp [engineOf, hE, hH]
    rw [hgd]
    have := choice_mem ["Gasoline", "Diesel"] d.gasDieselIdx (by decide)
    simpa using this

/-- Witness for C6: the Electric Bike draw yields model Electric Bike G1 and engine
Electric, and the implications of the claim hold there. -/
theorem claim_C6_engine_model_witness :
    (strContains "Electric Bike G1" "Electric" = true → "Electric" = "Electric") ∧
    (strContains "Electric Bike G1" "Hybrid" = true → "Electric" = "Hybrid") ∧
    (strContains "Electric Bike G1" "Electric" = false →
      strContains "Electric Bike G1" "Hybrid" = false →
      "Electric" = "Gasoline" ∨ "Electric" = "Diesel") :=
  claim_C6_engine_model 1 sampleVehicleDraws "Electric Bike G1" "Electric"
    (by show (if (1 : ℚ) > 5 / 100 then some (modelOf sampleVehicleDraws) else none)
          = some "Electric Bike G1"
        rw [if_pos (by norm_num)]
        decide)
    (by show (if (1 : ℚ) > 6 / 100 then some (engineOf sampleVehicleDraws) else none)
          = some "Electric"
        rw [if_pos (by norm_num)]
        decide)

/-- Duplicate-appending loop invariant: every appended element equals an element at a
strictly earlier index of the final list. -/
theorem addDupsFrom_dup {α : Type} [Inhabited α] (picks : Nat → Nat) :
    ∀ (n k : Nat) (l : List α), l ≠ [] → ∀ j, l.length ≤ j → j < l.length + n →
      ∃ m, m < j ∧ (addDupsFrom picks k n l).getD j default
          = (addDupsFrom picks k n l).getD m default := by
  intro n
  induction n with
  | zero =>
    intro k l _ j h1 h2
    omega
  | succ n ih =>
    intro k l hne j h1 h2
    show ∃ m, m < j ∧
      (addDupsFrom picks (k + 1) n (l ++ [choice l (picks k)])).getD j default
        = (addDupsFrom picks (k + 1) n (l ++ [choice l (picks k)])).getD m default
    by_cases hj : l.length + 1 ≤ j
    · exact ih (k + 1) (l ++ [choice l (picks k)]) (by simp) j (by simp; omega)
        (by simp; omega)
    · have hj2 : j = l.length := by omega
      obtain ⟨t, ht⟩ := addDupsFrom_eq_append picks n (k + 1) (l ++ [choice l (picks k)])
      rw [ht]
      have hmlt : picks k % l.length < l.length := Nat.mod_lt _ (List.length_pos.mpr hne)
      refine ⟨picks k % l.length, by omega, ?_⟩
      have h3 : ((l ++ [choice l (picks k)]) ++ t).getD j default = choice l (picks k) := by
        rw [List.getD_append _ _ _ _ (by simp; omega), hj2,
          List.getD_append_right _ _ _ _ (le_refl _)]
        simp
      have h4 : ((l ++ [choice l (picks k)]) ++ t).getD (picks k % l.length) default
          = l.getD (picks k % l.length) default := by
        rw [List.getD_append _ _ _ _ (by simp; omega), List.getD_append _ _ _ _ hmlt]
      rw [h3, h4, choice]

/-- C7: every one of the appended duplicate vehicle rows (indices 60 to 65) is
field-for-field identical to some row at a strictly earlier index of the table. -/
theorem claim_C7_duplicates (vd : Nat → VehicleDraws) (dp : Nat → Nat) (j : Nat)
    (h1 : NUM_VEHICLES ≤ j) (h2 : j < (generate_vehicle_master vd dp).length) :
    ∃ m, m < j ∧ (generate_vehicle_master vd dp).getD j default
        = (generate_vehicle_master vd dp).getD m default := by
  rw [generate_vehicle_master_length] at h2
  have hlen : ((List.range NUM_VEHICLES).map (fun k => makeVehicle (k + 1) (vd k))).length
      = NUM_VEHICLES := by simp
  show ∃ m, m < j ∧
    (addDupsFrom dp 0 (NUM_VEHICLES * 10 / 100)
        ((List.range NUM_VEHICLES).map (fun k => makeVehicle (k + 1) (vd k)))).getD j default
      = (addDupsFrom dp 0 (NUM_VEHICLES * 10 / 100)
        ((List.range NUM_VEHICLES).map (fun k => makeVehicle (k + 1) (vd k)))).getD m default
  apply addDupsFrom_dup
  · exact List.length_pos.mp (by rw [hlen]; norm_num [NUM_VEHICLES])
  · rw [hlen]
    exact h1
  · rw [hlen]
    revert h2
    norm_num [NUM_VEHICLES]

/-- Witness for C7: the first appended duplicate row, at index 60, equals an earlier
row. -/
theorem claim_C7_duplicates_witness :
    ∃ m, m < 60 ∧
      (generate_vehicle_master (fun _ => sampleVehicleDraws) (fun _ => 0)).getD 60 default
        = (generate_vehicle_master (fun _ => sampleVehicleDraws) (fun _ => 0)).getD m default :=
  claim_C7_duplicates (fun _ => sampleVehicleDraws) (fun _ => 0) 60 (by decide)
    (by rw [generate_vehicle_master_length]; norm_num)

/-- Parsing the components back out of an anomalous timestamp string. -/
theorem parse_anomalous (y : Nat) (d : MeasurementDraws) :
    yearOfDate (pad4 y ++ "-" ++ anomTimePart d) = y % 10000 ∧
    monthOfDate (pad4 y ++ "-" ++ anomTimePart d) = randint 1 12 d.anomMonthDraw ∧
    dayOfDate (pad4 y ++ "-" ++ anomTimePart d) = randint 1 28 d.anomDayDraw := by
  have hy : yearOfDate (pad4 y ++ "-" ++ anomTimePart d)
      = ((charVal (digitChar (y / 1000)) * 10 + charVal (digitChar (y / 100))) * 10 +
          charVal (digitChar (y / 10))) * 10 + charVal (digitChar y) := rfl
  have hmth : monthOfDate (pad4 y ++ "-" ++ anomTimePart d)
      = charVal (digitChar (randint 1 12 d.anomMonthDraw / 10)) * 10 +
          charVal (digitChar (randint 1 12 d.anomMonthDraw)) := rfl
  have hdy : dayOfDate (pad4 y ++ "-" ++ anomTimePart d)
      = charVal (digitChar (randint 1 28 d.anomDayDraw / 10)) * 10 +
          charVal (digitChar (randint 1 28 d.anomDayDraw)) := rfl
  have hm12 := randint_bounds 1 12 d.anomMonthDraw (by norm_num)
  have hd28 := randint_bounds 1 28 d.anomDayDraw (by norm_num)
  rw [hy, hmth, hdy]
  simp only [charVal_digitChar]
  exact ⟨by omega, by omega, by omega⟩

/-- C8: every measurement row taking the one-percent anomalous-date branch receives a
timestamp string whose year component is 2029 or lies in the set 2080, 2090, 2099
(hence is at least 2029), with month component in 1 to 12 and day component in
1 to 28. -/
theorem claim_C8_anomalous_dates (v : List VehicleRow) (i : Nat) (d : MeasurementDraws)
    (h : d.dateAnomU < 1 / 100) :
    ∃ s, (makeMeasurement v i d).measurementDate = some s ∧
      (yearOfDate s = 2029 ∨ yearOfDate s ∈ ([2080, 2090, 2099] : List Nat)) ∧
      2029 ≤ yearOfDate s ∧
      1 ≤ monthOfDate s ∧ monthOfDate s ≤ 12 ∧
      1 ≤ dayOfDate s ∧ dayOfDate s ≤ 28 := by
  refine ⟨anomalousDate d, ?_, ?_⟩
  · simp only [makeMeasurement]
    rw [if_pos h]
  have hm12 := randint_bounds 1 12 d.anomMonthDraw (by norm_num)
  have hd28 := randint_bounds 1 28 d.anomDayDraw (by norm_num)
  have hcases : anomalousDate d = "2029-" ++ anomTimePart d ∨
      ∃ y, (y = 2080 ∨ y = 2090 ∨ y = 2099) ∧
        anomalousDate d = pad4 y ++ "-" ++ anomTimePart d := by
    have h2 : d.anomTypeIdx % 2 = 0 ∨ d.anomTypeIdx % 2 = 1 := by omega
    rcases h2 with h2 | h2
    · left
      simp [anomalousDate, choice, h2]
    · right
      have h3 : d.farYearIdx % 3 = 0 ∨ d.farYearIdx % 3 = 1 ∨ d.farYearIdx % 3 = 2 := by omega
      rcases h3 with h3 | h3 | h3
      · exact ⟨2080, Or.inl rfl, by simp [anomalousDate, choice, h2, h3]⟩
      · exact ⟨2090, Or.inr (Or.inl rfl), by simp [anomalousDate, choice, h2, h3]⟩
      · exact ⟨2099, Or.inr (Or.inr rfl), by simp [anomalousDate, choice, h2, h3]⟩
  rcases hcases with hA | ⟨y, hy, hB⟩
  · have hstr : ("2029-" : String) = pad4 2029 ++ "-" := by decide
    rw [hA, hstr]
    obtain ⟨hy1, hm1, hd1⟩ := parse_anomalous 2029 d
    rw [hy1, hm1, hd1]
    exact ⟨Or.inl (by norm_num), by norm_num, by omega, by omega, by omega, by omega⟩
  · rw [hB]
    obtain ⟨hy1, hm1, hd1⟩ := parse_anomalous y d
    rw [hy1, hm1, hd1]
    rcases hy with rfl | rfl | rfl <;>
      exact ⟨Or.inr (by decide), by norm_num, by omega, by omega, by omega, by omega⟩

/-- Witness for C8: a draw taking the anomalous branch yields a timestamp with the
claimed component bounds. -/
theorem claim_C8_anomalous_dates_witness :
    ∃ s, (makeMeasurement [] 0 anomDraws).measurementDate = some s ∧
      (yearOfDate s = 2029 ∨ yearOfDate s ∈ ([2080, 2090, 2099] : List Nat)) ∧
      2029 ≤ yearOfDate s ∧
      1 ≤ monthOfDate s ∧ monthOfDate s ≤ 12 ∧
      1 ≤ dayOfDate s ∧ dayOfDate s ≤ 28 :=
  claim_C8_anomalous_dates [] 0 anomDraws (by show (0 : ℚ) < 1 / 100; norm_num)

/-- C9: the feedback comment is selected from the pool determined by the drawn comfort
tier before any nulling; in particular, for every row with a non-null comfort level,
a non-null comment lies in the pool of that level (positive for Excellent or Very
Good, neutral for Good or Fair, negative for Very Poor or Poor). -/
theorem claim_C9_comment_pools (vehicles : List VehicleRow) (i : Nat) (d : FeedbackDraws) :
    (∀ c, (makeFeedback vehicles i d).comment = some c →
      c ∈ poolFor (choice comfort_levels d.comfortIdx)) ∧
    (∀ t c, (makeFeedback vehicles i d).comfortLevel = some t →
      (makeFeedback vehicles i d).comment = some c →
      ((t = "Excellent" ∨ t = "Very Good") → c ∈ comments_positive) ∧
      ((t = "Good" ∨ t = "Fair") → c ∈ comments_neutral) ∧
      ((t = "Very Poor" ∨ t = "Poor") → c ∈ comments_negative)) := by
  have hcm : ∀ c, (makeFeedback vehicles i d).comment = some c →
      c = choice (poolFor (choice comfort_levels d.comfortIdx)) d.commentIdx := by
    intro c hc
    rcases le_or_lt d.commentNullU (10 / 100) with h | h
    · simp [makeFeedback, not_lt.mpr h] at hc
    · simp [makeFeedback, h] at hc
      exact hc.symm
  have hlv : ∀ t, (makeFeedback vehicles i d).comfortLevel = some t →
      t = choice comfort_levels d.comfortIdx := by
    intro t ht
    rcases le_or_lt d.comfortNullU (15 / 100) with h | h
    · simp [makeFeedback, not_lt.mpr h] at ht
    · simp [makeFeedback, h] at ht
      exact ht.symm
  constructor
  · intro c hc
    rw [hcm c hc]
    exact choice_mem _ _ (poolFor_ne_nil _)
  · intro t c ht hc
    have ht2 := hlv t ht
    have hc2 := hcm c hc
    refine ⟨?_, ?_, ?_⟩
    · rintro (rfl | rfl) <;> rw [hc2, ← ht2]
      · rw [show poolFor "Excellent" = comments_positive from by simp [poolFor]]
        exact choice_mem _ _ (by decide)
      · rw [show poolFor "Very Good" = comments_positive from by simp [poolFor]]
        exact choice_mem _ _ (by decide)
    · rintro (rfl | rfl) <;> rw [hc2, ← ht2]
      · rw [show poolFor "Good" = comments_neutral from by simp [poolFor]]
        exact choice_mem _ _ (by decide)
      · rw [show poolFor "Fair" = comments_neutral from by simp [poolFor]]
        exact choice_mem _ _ (by decide)
    · rintro (rfl | rfl) <;> rw [hc2, ← ht2]
      · rw [show poolFor "Very Poor" = comments_negative from by simp [poolFor]]
        exact choice_mem _ _ (by decide)
      · rw [show poolFor "Poor" = comments_negative from by simp [poolFor]]
        exact choice_mem _ _ (by decide)

/-- Witness for C9: a row drawn at the Excellent comfort level with nothing nulled has
its comment in the positive pool. -/
theorem claim_C9_comment_pools_witness :
    "Very smooth and quiet ride, excellent NVH performance" ∈ comments_positive :=
  (((claim_C9_comment_pools [] 0 sampleFeedbackDraws).2 "Excellent"
      "Very smooth and quiet ride, excellent NVH performance"
      (by norm_num [makeFeedback, sampleFeedbackDraws, choice, comfort_levels])
      (by norm_num [makeFeedback, sampleFeedbackDraws, choice, comfort_levels, poolFor,
        comments_positive])).1)
    (Or.inl rfl)

/-- C10: for every non-empty vehicle table, every measurement row and every feedback
row carries a Vehicle ID equal to the Vehicle ID of some row of the supplied vehicle
table. -/
theorem claim_C10_foreign_keys (vehicles : List VehicleRow) (hne : vehicles ≠ [])
    (md : Nat → MeasurementDraws) (fd : Nat → FeedbackDraws) :
    (∀ r ∈ generate_nvh_measurements vehicles md,
      r.vehicleID ∈ vehicles.map VehicleRow.vehicleID) ∧
    (∀ r ∈ generate_customer_feedback vehicles fd,
      r.vehicleID ∈ vehicles.map VehicleRow.vehicleID) := by
  constructor
  · intro r hr
    simp only [generate_nvh_measurements, List.mem_map] at hr
    obtain ⟨i, _, rfl⟩ := hr
    show (choice vehicles (md i).vehIdx).vehicleID ∈ _
    exact List.mem_map_of_mem _ (choice_mem _ _ hne)
  · intro r hr
    simp only [generate_customer_feedback, List.mem_map] at hr
    obtain ⟨i, _, rfl⟩ := hr
    show (choice vehicles (fd i).vehIdx).vehicleID ∈ _
    exact List.mem_map_of_mem _ (choice_mem _ _ hne)

/-- Witness for C10: instantiation at a concrete one-row vehicle table. -/
theorem claim_C10_foreign_keys_witness :
    (∀ r ∈ generate_nvh_measurements [sampleVehicle] (fun _ => cexDrawsA),
      r.vehicleID ∈ [sampleVehicle].map VehicleRow.vehicleID) ∧
    (∀ r ∈ generate_customer_feedback [sampleVehicle] (fun _ => sampleFeedbackDraws),
      r.vehicleID ∈ [sampleVehicle].map VehicleRow.vehicleID) :=
  claim_C10_foreign_keys [sampleVehicle] (by simp) (fun _ => cexDrawsA)
    (fun _ => sampleFeedbackDraws)

/-- C3 counterexample: no column of the measurement table reports the drawn test
condition: two draw records that differ only in the test condition produce identical
measurement rows, and no label of the form Test Condition occurs among the columns. -/
theorem claim_C3_no_test_condition_column :
    ¬ ∃ col, col ∈ measurementColumns ∧
      ∀ (v : List VehicleRow) (i : Nat) (d : MeasurementDraws),
        fieldValAt (makeMeasurement v i d) col
          = FieldVal.str (choice test_conditions d.tcIdx) := by
  rintro ⟨col, _, hall⟩
  have h1 := hall [sampleVehicle] 0 cexDrawsA
  have h2 := hall [sampleVehicle] 0 cexDrawsB
  have he : makeMeasurement [sampleVehicle] 0 cexDrawsA
      = makeMeasurement [sampleVehicle] 0 cexDrawsB := by
    simp [makeMeasurement, cexDrawsA, cexDrawsB, choice, test_conditions, road_surfaces]
    norm_num
  rw [he, h2] at h1
  have hne : choice test_conditions cexDrawsB.tcIdx ≠ choice test_conditions cexDrawsA.tcIdx := by
    decide
  exact hne (FieldVal.str.inj h1)

/-- C3 amended: every measurement record carries exactly the eight enumerated labels
(the test condition is drawn and shapes the numeric fields but is not stored), and the
road surface field, when non-null, is drawn from the road surface catalog. -/
theorem claim_C3_labels (v : List VehicleRow) (i : Nat) (d : MeasurementDraws) :
    (measurementFields (makeMeasurement v i d)).map Prod.fst = measurementColumns ∧
    measurementColumns = ["Measurement ID", "Vehicle ID", "Measurement Date", "Road Surface",
      "Speed (KMH)", "Noise Level (dB)", "Vibration Frequency (Hz)", "Harshness Score"] ∧
    (∀ s, (makeMeasurement v i d).roadSurface = some s → s ∈ road_surfaces) := by
  refine ⟨rfl, rfl, ?_⟩
  intro s hs
  rcases le_or_lt d.rsNullU (6 / 100) with h | h
  · simp [makeMeasurement, not_lt.mpr h] at hs
  · simp [makeMeasurement, h] at hs
    rw [← hs]
    exact choice_mem _ _ (by decide)

/-- Witness for C3: a concrete row keeps its road surface and that surface is in the
catalog. -/
theorem claim_C3_labels_witness : "Asphalt" ∈ road_surfaces :=
  (claim_C3_labels [sampleVehicle] 0 cexDrawsA).2.2 "Asphalt"
    (by norm_num [makeMeasurement, cexDrawsA, choice, road_surfaces])

end NVH
